import Mathlib

/-!
Verification of the keyset-pagination predicate builder `paginate_query`
from `try_sql.py` (a copy of glance/db/sqlalchemy/api.py).

The embedding is shallow:
  * a sqlalchemy `Query` becomes a record of the ordering instructions,
    filter predicates and limit accumulated so far (`order_by` appends an
    ordering instruction, `filter` appends a predicate, `limit` sets the cap);
  * an ORM model class becomes the list of its attribute names;
  * a marker object becomes a function from attribute name to
    absent / null (Python `None`) / a concrete value, mirroring
    `getattr(marker, k)` which raises `AttributeError`, returns `None`,
    or returns a value;
  * the sqlalchemy expression objects built by `==`, `<`, `>`,
    `and_` and `or_` become an explicit predicate AST `PredExp`,
    evaluated over rows with SQL semantics (comparisons with NULL
    are never satisfied);
  * Python exceptions become an error type `PgError`: the two `assert`
    statements (line 44: `not (sort_dir and sort_dirs)`, line 54:
    `len(sort_dirs) == len(sort_keys)`), the `ValueError` for an unknown
    sort direction, `InvalidSortKey` for a model attribute that does not
    resolve, and the `AttributeError` raised by `getattr(marker, key)`;
  * Python truthiness in `assert(not (sort_dir and sort_dirs))` is modelled
    exactly: `None`, the empty string and the empty list are falsy.
-/

/-- Column values.  All values exercised by the program and the claims are
strings (compared lexicographically, as the database compares VARCHARs). -/
abbrev Value := String

/-- A database row assigns to each attribute name either NULL (`none`) or a
value. -/
abbrev Row := String → Option Value

/-- Result of `getattr(marker, key)` on a marker object: the attribute may be
missing entirely (Python raises `AttributeError`), present but `None`
(a NULL column), or present with a value. -/
inductive MarkerAttr where
  | absent
  | nullVal
  | val (v : Value)
deriving DecidableEq

/-- Whether the attribute lookup yields a (non-null) value. -/
def MarkerAttr.isVal : MarkerAttr → Bool
  | .val _ => true
  | _ => false

/-- Whether the attribute lookup raises `AttributeError`. -/
def MarkerAttr.isAbsent : MarkerAttr → Bool
  | .absent => true
  | _ => false

/-- The value carried by the attribute, with a default for the other cases. -/
def MarkerAttr.toVal : MarkerAttr → Value
  | .val v => v
  | _ => ""

/-- The Python value of the attribute: `none` models Python `None`. -/
def MarkerAttr.toPyVal : MarkerAttr → Option Value
  | .val v => some v
  | _ => none

/-- A marker object: the last row of the previous page, viewed through
`getattr`. -/
abbrev Marker := String → MarkerAttr

/-- A resolved sort direction: `sqlalchemy.asc` or `sqlalchemy.desc`. -/
inductive SortDir where
  | asc
  | desc
deriving DecidableEq

/-- The sqlalchemy predicate expressions built by `paginate_query`:
column-to-literal comparisons combined by variadic `and_` / `or_`.
The literal is an `Option Value` because the code happily embeds a Python
`None` (SQL NULL) coming from a marker attribute. -/
inductive PredExp where
  | cmpEq (attr : String) (v : Option Value)
  | cmpLt (attr : String) (v : Option Value)
  | cmpGt (attr : String) (v : Option Value)
  | andP (conjuncts : List PredExp)
  | orP (disjuncts : List PredExp)

mutual

/-- SQL evaluation of a predicate over a row.  A comparison in which either
side is NULL is UNKNOWN, hence not satisfied in a WHERE clause. -/
def evalPred (r : Row) : PredExp → Bool
  | .cmpEq a v =>
    match r a, v with
    | some x, some y => x == y
    | _, _ => false
  | .cmpLt a v =>
    match r a, v with
    | some x, some y => decide (x < y)
    | _, _ => false
  | .cmpGt a v =>
    match r a, v with
    | some x, some y => decide (y < x)
    | _, _ => false
  | .andP l => evalConj r l
  | .orP l => evalDisj r l

/-- Conjunction of a list of predicates (`and_(*args)`); empty is true. -/
def evalConj (r : Row) : List PredExp → Bool
  | [] => true
  | p :: ps => evalPred r p && evalConj r ps

/-- Disjunction of a list of predicates (`or_(*args)`); empty is false. -/
def evalDisj (r : Row) : List PredExp → Bool
  | [] => false
  | p :: ps => evalPred r p || evalDisj r ps

end

/-- The pagination-relevant state of a sqlalchemy `Query`: the ordering
instructions added by `order_by`, the predicates added by `filter`
(all conjoined by the WHERE clause), and the row cap set by `limit`. -/
structure Query where
  orderings : List (String × SortDir)
  filters : List PredExp
  limitv : Option Int

/-- The failures `paginate_query` can raise, one constructor per raise site:
the assert on line 44 (the spec's ConflictingDirectionsError), the assert on
line 54 (DirectionCountMismatchError), the ValueError for a direction outside
the `{'asc', 'desc'}` dictionary (UnknownSortDirectionError), `InvalidSortKey`
for a sort key that is no model attribute (UnknownSortKeyError), and the
`AttributeError` escaping from `getattr(marker, key)`. -/
inductive PgError where
  | assertionConflictingDirs
  | assertionDirCountMismatch
  | valueErrorUnknownSortDirection
  | invalidSortKey
  | attributeError (attr : String)
deriving DecidableEq

/-- Python truthiness of the optional `sort_dir` string argument: `None` and
the empty string are falsy. -/
def truthyStr : Option String → Bool
  | none => false
  | some s => s != ""

/-- Python truthiness of the optional `sort_dirs` list argument: `None` and
the empty list are falsy. -/
def truthyList : Option (List String) → Bool
  | none => false
  | some l => !l.isEmpty

/-- Lines 46-52: default the sort direction to ascending when neither
argument was given, then ensure a per-column direction list.  When
`sort_dirs` is `None` the list is `[sort_dir for _ in sort_keys]`, where
`sort_dir` was just defaulted to `'asc'` if it too was `None`. -/
def resolveDirs (sort_keys : List String) (sort_dir : Option String)
    (sort_dirs : Option (List String)) : List String :=
  match sort_dirs with
  | some l => l
  | none => sort_keys.map (fun _ => sort_dir.getD "asc")

/-- Lines 59-62: the dictionary lookup `{'asc': asc, 'desc': desc}[d]`;
`none` models the `KeyError` turned into a `ValueError`. -/
def dirFuncLookup (d : String) : Option SortDir :=
  if d = "asc" then some SortDir.asc
  else if d = "desc" then some SortDir.desc
  else none

/-- Lines 57-70: the sorting loop.  For each (key, direction) pair in order:
resolve the direction (else ValueError), resolve the model attribute (else
InvalidSortKey), and append one ordering instruction. -/
def addSorting (model : List String) (q : Query) :
    List (String × String) → Except PgError Query
  | [] => .ok q
  | (k, d) :: rest =>
    match dirFuncLookup d with
    | none => .error .valueErrorUnknownSortDirection
    | some f =>
      if model.contains k then
        addSorting model { q with orderings := q.orderings ++ [(k, f)] } rest
      else
        .error .invalidSortKey

/-- Lines 74-77: collect `getattr(marker, k)` for each sort key, in order;
an absent attribute raises `AttributeError`, a `None` value is appended
silently. -/
def collectMarkerValues (m : Marker) : List String → Except PgError (List (Option Value))
  | [] => .ok []
  | k :: rest =>
    match m k with
    | .absent => .error (.attributeError k)
    | .nullVal =>
      match collectMarkerValues m rest with
      | .error e => .error e
      | .ok vs => .ok (none :: vs)
    | .val v =>
      match collectMarkerValues m rest with
      | .error e => .error e
      | .ok vs => .ok (some v :: vs)

/-- Lines 82-93: the i-th sort criterion: the conjunction, over j < i, of
`model.key_j == marker_values[j]`, followed by the strict comparison on key i
(`<` for `'desc'`, `>` otherwise). -/
def buildCriterion (sort_keys sort_dirs : List String)
    (marker_values : List (Option Value)) (i : Nat) : PredExp :=
  let crit_eqs := (List.range i).map
    (fun j => PredExp.cmpEq (sort_keys.getD j "") (marker_values.getD j none))
  let ineq :=
    if sort_dirs.getD i "" = "desc" then
      PredExp.cmpLt (sort_keys.getD i "") (marker_values.getD i none)
    else
      PredExp.cmpGt (sort_keys.getD i "") (marker_values.getD i none)
  PredExp.andP (crit_eqs ++ [ineq])

/-- Lines 80-96: the compound marker predicate
`or_(*[and_(*crit_attrs_i) for i in range(len(sort_keys))])`. -/
def markerPredicate (sort_keys sort_dirs : List String)
    (marker_values : List (Option Value)) : PredExp :=
  PredExp.orP ((List.range sort_keys.length).map
    (buildCriterion sort_keys sort_dirs marker_values))

/-- The embedding of `paginate_query` (try_sql.py lines 7-102).  Returns the
augmented query together with the flag recording whether the advisory
diagnostic `'Id not in sort_keys; is sort_keys unique?'` was logged
(line 39-42), or the first error raised. -/
def paginate_query (query : Query) (model : List String) (limit : Option Int)
    (sort_keys : List String) (marker : Option Marker := none)
    (sort_dir : Option String := none) (sort_dirs : Option (List String) := none) :
    Except PgError (Query × Bool) :=
  if truthyStr sort_dir && truthyList sort_dirs then
    .error .assertionConflictingDirs
  else if (resolveDirs sort_keys sort_dir sort_dirs).length = sort_keys.length then
    match addSorting model query
        (sort_keys.zip (resolveDirs sort_keys sort_dir sort_dirs)) with
    | .error e => .error e
    | .ok q1 =>
      match marker with
      | none =>
        match limit with
        | some l => .ok ({ q1 with limitv := some l }, !(sort_keys.contains "id"))
        | none => .ok (q1, !(sort_keys.contains "id"))
      | some m =>
        match collectMarkerValues m sort_keys with
        | .error e => .error e
        | .ok mvals =>
          match limit with
          | some l => .ok ({ q1 with
              filters := q1.filters ++ [markerPredicate sort_keys
                (resolveDirs sort_keys sort_dir sort_dirs) mvals],
              limitv := some l }, !(sort_keys.contains "id"))
          | none => .ok ({ q1 with
              filters := q1.filters ++ [markerPredicate sort_keys
                (resolveDirs sort_keys sort_dir sort_dirs) mvals] },
              !(sort_keys.contains "id"))
  else .error .assertionDirCountMismatch

/-- Comparison of row values under one ordering instruction: NULLs sort
first in ascending order (MySQL semantics); the direction flips the
comparison. -/
def valLt (a b : Option Value) : Bool :=
  match a, b with
  | none, none => false
  | none, some _ => true
  | some _, none => false
  | some x, some y => decide (x < y)

/-- Lexicographic row comparison along the ordering instructions. -/
def rowLe (ords : List (String × SortDir)) (a b : Row) : Bool :=
  match ords with
  | [] => true
  | (k, d) :: rest =>
    if a k = b k then rowLe rest a b
    else
      match d with
      | .asc => valLt (a k) (b k)
      | .desc => valLt (b k) (a k)

/-- Stable insertion of a row into an already sorted list. -/
def insertRow (le : Row → Row → Bool) (r : Row) : List Row → List Row
  | [] => [r]
  | x :: xs => if le x r then x :: insertRow le r xs else r :: x :: xs

/-- Stable multi-level sort of the rows (insertion sort). -/
def sortRows (ords : List (String × SortDir)) : List Row → List Row
  | [] => []
  | x :: xs => insertRow (rowLe ords) x (sortRows ords xs)

/-- SQL execution semantics of the query state: filter by the conjunction of
all WHERE predicates, sort by the ordering instructions, then apply the LIMIT
cap (no offset). -/
def runQuery (q : Query) (rows : List Row) : List Row :=
  let filtered := rows.filter (fun r => q.filters.all (fun p => evalPred r p))
  let sorted := sortRows q.orderings filtered
  match q.limitv with
  | some l => sorted.take l.toNat
  | none => sorted

/-- The direction denoted by a recognized direction string. -/
def parseDir (d : String) : SortDir :=
  if d = "desc" then SortDir.desc else SortDir.asc

/-- The marker values gathered by the collection loop when every attribute is
present: Python `None` becomes `none`. -/
def markerValsOf (m : Marker) (sort_keys : List String) : List (Option Value) :=
  sort_keys.map (fun k => (m k).toPyVal)

/-- The spec formula for the i-th term of the compound marker predicate
(spec section 4.3): the conjunction over j < i of `k_j == m_j` together with
`k_i > m_i` for an ascending key and `k_i < m_i` for a descending one.
Written from the spec text, to be compared with the builder's output. -/
def specTerm (keys : List String) (dirs : List SortDir) (vals : List Value)
    (i : Nat) : PredExp :=
  PredExp.andP
    (((List.range i).map fun j => PredExp.cmpEq (keys.getD j "") (some (vals.getD j ""))) ++
      [match dirs.getD i SortDir.asc with
       | SortDir.asc => PredExp.cmpGt (keys.getD i "") (some (vals.getD i ""))
       | SortDir.desc => PredExp.cmpLt (keys.getD i "") (some (vals.getD i ""))])

/-- The spec formula for the whole compound marker predicate: the disjunction
over i in [1..n] of `specTerm i`.  Written from the spec text. -/
def specCompoundPredicate (keys : List String) (dirs : List SortDir)
    (vals : List Value) : PredExp :=
  PredExp.orP ((List.range keys.length).map (specTerm keys dirs vals))

/-- A fresh query with nothing added yet. -/
def emptyQuery : Query := ⟨[], [], none⟩

/-- The attribute names of the `Meter` model (try_sql.py lines 136-149),
including the aliased variant used by `get_meters`. -/
def meterModel : List String :=
  ["id", "counter_name", "resource_id", "counter_type", "counter_unit",
   "counter_volume", "timestamp"]

/-- The marker row used by the demo (`get_marker` for counter_name 'odd',
resource_id 'id7'): it carries a value for every `Meter` attribute; the
attributes the claims inspect are `counter_name` and `resource_id`. -/
def exampleMarker : Marker := fun k =>
  if k = "counter_name" then .val "odd"
  else if k = "resource_id" then .val "id7"
  else if k = "id" then .val "17"
  else .absent

lemma dirFuncLookup_of_recognized {d : String} (h : d = "asc" ∨ d = "desc") :
    dirFuncLookup d = some (parseDir d) := by
  rcases h with h | h <;> subst h <;> rfl

lemma addSorting_ok (model : List String) (pairs : List (String × String)) :
    (∀ p ∈ pairs, (p.2 = "asc" ∨ p.2 = "desc") ∧ model.contains p.1 = true) →
    ∀ q : Query, addSorting model q pairs =
      .ok { q with orderings := q.orderings ++ pairs.map (fun p => (p.1, parseDir p.2)) } := by
  induction pairs with
  | nil => intro _ q; simp [addSorting]
  | cons p rest ih =>
    intro h q
    obtain ⟨⟨hd, hk⟩, hrest⟩ := List.forall_mem_cons.mp h
    obtain ⟨k, d⟩ := p
    simp only [addSorting, dirFuncLookup_of_recognized hd, hk, if_true]
    rw [ih hrest]
    simp [List.append_assoc]

lemma MarkerAttr.toPyVal_of_isVal {a : MarkerAttr} (h : a.isVal = true) :
    a.toPyVal = some a.toVal := by
  cases a <;> simp_all [MarkerAttr.isVal, MarkerAttr.toPyVal, MarkerAttr.toVal]

lemma MarkerAttr.not_isAbsent_of_isVal {a : MarkerAttr} (h : a.isVal = true) :
    a.isAbsent = false := by
  cases a <;> simp_all [MarkerAttr.isVal, MarkerAttr.isAbsent]

lemma collectMarkerValues_ok (m : Marker) (keys : List String)
    (h : ∀ k ∈ keys, (m k).isAbsent = false) :
    collectMarkerValues m keys = .ok (markerValsOf m keys) := by
  induction keys with
  | nil => rfl
  | cons k rest ih =>
    obtain ⟨hk, hrest⟩ := List.forall_mem_cons.mp h
    have := ih hrest
    cases ha : m k <;>
      simp_all [collectMarkerValues, markerValsOf, MarkerAttr.isAbsent, MarkerAttr.toPyVal]

/-- The filter predicates a call adds: none without a marker, the compound
marker predicate with one. -/
def addedFilters (marker : Option Marker) (keys dirs : List String) : List PredExp :=
  match marker with
  | none => []
  | some m => [markerPredicate keys dirs (markerValsOf m keys)]

/-- Characterization of every successful run of `paginate_query`: when the
two asserts pass, every resolved direction is recognized, every sort key is a
model attribute and the marker (if any) has no absent attribute, the call
returns the query augmented with one ordering instruction per key, the
compound marker predicate (when a marker was given) and the limit, together
with the advisory-diagnostic flag. -/
lemma paginate_query_ok (q : Query) (model : List String) (limit : Option Int)
    (sort_keys : List String) (marker : Option Marker)
    (sort_dir : Option String) (sort_dirs : Option (List String))
    (hA : (truthyStr sort_dir && truthyList sort_dirs) = false)
    (hLen : (resolveDirs sort_keys sort_dir sort_dirs).length = sort_keys.length)
    (hDirs : ∀ d ∈ resolveDirs sort_keys sort_dir sort_dirs, d = "asc" ∨ d = "desc")
    (hKeys : ∀ k ∈ sort_keys, model.contains k = true)
    (hMark : ∀ m, marker = some m → ∀ k ∈ sort_keys, (m k).isAbsent = false) :
    paginate_query q model limit sort_keys marker sort_dir sort_dirs =
      .ok ({ orderings := q.orderings ++
               (sort_keys.zip (resolveDirs sort_keys sort_dir sort_dirs)).map
                 (fun p => (p.1, parseDir p.2)),
             filters := q.filters ++
               addedFilters marker sort_keys (resolveDirs sort_keys sort_dir sort_dirs),
             limitv := match limit with | some l => some l | none => q.limitv },
           !(sort_keys.contains "id")) := by
  have hzip : ∀ p ∈ sort_keys.zip (resolveDirs sort_keys sort_dir sort_dirs),
      (p.2 = "asc" ∨ p.2 = "desc") ∧ model.contains p.1 = true := by
    intro p hp
    have hmem := List.of_mem_zip hp
    exact ⟨hDirs _ hmem.2, hKeys _ hmem.1⟩
  unfold paginate_query
  rw [if_neg (by simp [hA]), if_pos hLen,
    addSorting_ok model _ hzip q]
  cases marker with
  | none => cases limit <;> simp [addedFilters]
  | some m =>
    simp only [collectMarkerValues_ok m sort_keys (hMark m rfl)]
    cases limit <;> simp [addedFilters]

lemma getD_map_of_lt {α β : Type} (f : α → β) (l : List α) {j : Nat}
    (hj : j < l.length) (d : β) (d' : α) :
    (l.map f).getD j d = f (l.getD j d') := by
  rw [List.getD_eq_getElem _ _ (by simpa using hj),
    List.getD_eq_getElem _ _ hj, List.getElem_map]

lemma getD_mem_of_lt {α : Type} (l : List α) {j : Nat} (hj : j < l.length)
    (d : α) : l.getD j d ∈ l := by
  rw [List.getD_eq_getElem _ _ hj]
  exact List.getElem_mem hj

/-- The predicate the code builds coincides with the spec's disjunction
formula, once the direction strings are read as directions and the marker
values (all present and non-null) are read as values. -/
lemma markerPredicate_eq_spec (keys dirs : List String) (m : Marker)
    (hLen : dirs.length = keys.length)
    (hDirs : ∀ d ∈ dirs, d = "asc" ∨ d = "desc")
    (hVals : ∀ k ∈ keys, (m k).isVal = true) :
    markerPredicate keys dirs (markerValsOf m keys) =
      specCompoundPredicate keys (dirs.map parseDir) (keys.map fun k => (m k).toVal) := by
  unfold markerPredicate specCompoundPredicate
  congr 1
  apply List.map_congr_left
  intro i hi
  have hi' : i < keys.length := List.mem_range.mp hi
  have hval : ∀ j : Nat, j < keys.length →
      (markerValsOf m keys).getD j none =
        some ((keys.map fun k => (m k).toVal).getD j "") := by
    intro j hj
    rw [markerValsOf, getD_map_of_lt _ _ hj none "",
      getD_map_of_lt _ _ hj "" ""]
    exact MarkerAttr.toPyVal_of_isVal (hVals _ (getD_mem_of_lt keys hj ""))
  have heq : (List.range i).map
        (fun j => PredExp.cmpEq (keys.getD j "") ((markerValsOf m keys).getD j none)) =
      (List.range i).map
        (fun j => PredExp.cmpEq (keys.getD j "")
          (some ((keys.map fun k => (m k).toVal).getD j ""))) :=
    List.map_congr_left
      (fun j hj => by rw [hval j (lt_trans (List.mem_range.mp hj) hi')])
  have hdi : dirs.getD i "" ∈ dirs := getD_mem_of_lt dirs (hLen ▸ hi') ""
  have hpd : (dirs.map parseDir).getD i SortDir.asc = parseDir (dirs.getD i "") :=
    getD_map_of_lt parseDir dirs (hLen ▸ hi') SortDir.asc ""
  simp only [buildCriterion, specTerm]
  rw [heq, hpd]
  rcases hDirs _ hdi with h | h <;> rw [h, hval i hi'] <;> rfl

lemma evalPred_orP_andP_single (c : PredExp) (r : Row) :
    evalPred r (PredExp.orP [PredExp.andP [c]]) = evalPred r c := by
  simp [evalPred, evalDisj, evalConj]

lemma addSorting_unknown_dir (model : List String) (pairs : List (String × String))
    (hKeys : ∀ p ∈ pairs, model.contains p.1 = true)
    (hBad : ∃ p ∈ pairs, dirFuncLookup p.2 = none) :
    ∀ q : Query, addSorting model q pairs = .error .valueErrorUnknownSortDirection := by
  induction pairs with
  | nil => simp at hBad
  | cons p rest ih =>
    intro q
    obtain ⟨hk, hkrest⟩ := List.forall_mem_cons.mp hKeys
    obtain ⟨p0, hp0, hbad0⟩ := hBad
    obtain ⟨k, d⟩ := p
    rcases List.mem_cons.mp hp0 with h | h
    · subst h
      simp [addSorting, hbad0]
    · cases hl : dirFuncLookup d with
      | none => simp [addSorting, hl]
      | some f =>
        have hk2 : k ∈ model := by simpa using hk
        simp [addSorting, hl, hk2, ih hkrest ⟨p0, h, hbad0⟩]

lemma addSorting_no_unknown_dir (model : List String) (pairs : List (String × String))
    (hGood : ∀ p ∈ pairs, dirFuncLookup p.2 ≠ none) :
    ∀ q : Query, addSorting model q pairs ≠ .error .valueErrorUnknownSortDirection := by
  induction pairs with
  | nil => intro q h; simp [addSorting] at h
  | cons p rest ih =>
    intro q
    obtain ⟨hd, hdrest⟩ := List.forall_mem_cons.mp hGood
    obtain ⟨k, d⟩ := p
    cases hl : dirFuncLookup d with
    | none => exact absurd hl hd
    | some f =>
      by_cases hk : model.contains k
      · simp only [addSorting, hl, hk, if_true]
        exact ih hdrest _
      · have hk2 : ¬k ∈ model := by simpa using hk
        simp [addSorting, hl, hk2]

lemma collectMarkerValues_absent (m : Marker) (keys : List String)
    (hAbs : ∃ k ∈ keys, (m k).isAbsent = true) :
    ∃ a, collectMarkerValues m keys = .error (.attributeError a) := by
  induction keys with
  | nil => simp at hAbs
  | cons k rest ih =>
    obtain ⟨k0, hk0, habs0⟩ := hAbs
    rcases List.mem_cons.mp hk0 with h | h
    · subst h
      cases hmk : m k0 with
      | absent => exact ⟨k0, by simp [collectMarkerValues, hmk]⟩
      | nullVal => simp [hmk, MarkerAttr.isAbsent] at habs0
      | val v => simp [hmk, MarkerAttr.isAbsent] at habs0
    · cases hmk : m k with
      | absent => exact ⟨k, by simp [collectMarkerValues, hmk]⟩
      | nullVal =>
        obtain ⟨a, ha⟩ := ih ⟨k0, h, habs0⟩
        exact ⟨a, by simp [collectMarkerValues, hmk, ha]⟩
      | val v =>
        obtain ⟨a, ha⟩ := ih ⟨k0, h, habs0⟩
        exact ⟨a, by simp [collectMarkerValues, hmk, ha]⟩

lemma collectMarkerValues_error_shape (m : Marker) (keys : List String) (e : PgError)
    (h : collectMarkerValues m keys = .error e) : ∃ a, e = .attributeError a := by
  induction keys with
  | nil => simp [collectMarkerValues] at h
  | cons k rest ih =>
    cases hmk : m k with
    | absent =>
      simp [collectMarkerValues, hmk] at h
      exact ⟨k, h.symm⟩
    | nullVal =>
      rw [collectMarkerValues, hmk] at h
      cases hrec : collectMarkerValues m rest with
      | error e2 => rw [hrec] at h; cases h; exact ih hrec
      | ok vs => rw [hrec] at h; cases h
    | val v =>
      rw [collectMarkerValues, hmk] at h
      cases hrec : collectMarkerValues m rest with
      | error e2 => rw [hrec] at h; cases h; exact ih hrec
      | ok vs => rw [hrec] at h; cases h

lemma exists_pair_of_mem_right {α β : Type} :
    ∀ (l1 : List α) (l2 : List β), l1.length = l2.length →
      ∀ b ∈ l2, ∃ a, (a, b) ∈ l1.zip l2
  | [], [], _, b, hb => by simp at hb
  | [], b0 :: l2, h, b, hb => by simp at h
  | a0 :: l1, [], h, b, hb => by simp at hb
  | a0 :: l1, b0 :: l2, h, b, hb => by
    rcases List.mem_cons.mp hb with hb | hb
    · exact ⟨a0, by simp [hb]⟩
    · obtain ⟨a, ha⟩ := exists_pair_of_mem_right l1 l2 (by simpa using h) b hb
      exact ⟨a, by simp [List.zip_cons_cons, ha]⟩

lemma zip_map_const_asc (keys : List String) :
    (keys.zip (keys.map fun _ => "asc")).map (fun p => (p.1, parseDir p.2)) =
      keys.map (fun k => (k, SortDir.asc)) := by
  induction keys with
  | nil => rfl
  | cons k rest ih => simpa [parseDir] using ih

/-- C1: on every successful call with a marker supplying a (non-null) value
for each sort key, the filter predicate `paginate_query` adds is exactly the
spec's disjunction over i of the conjunction of the equalities `k_j == m_j`
for j < i with the strict comparison on key i in its own direction
(`>` ascending, `<` descending), with exact value equality; and in particular
for keys [(counter_name, desc), (resource_id, desc)] and marker
{counter_name: "odd", resource_id: "id7"} the built predicate evaluates on
every row exactly as
(counter_name < "odd") OR (counter_name == "odd" AND resource_id < "id7"). -/
theorem paginate_marker_predicate_matches_spec_formula
    (q : Query) (model : List String) (limit : Option Int)
    (sort_keys : List String) (m : Marker)
    (sort_dir : Option String) (sort_dirs : Option (List String))
    (hA : (truthyStr sort_dir && truthyList sort_dirs) = false)
    (hLen : (resolveDirs sort_keys sort_dir sort_dirs).length = sort_keys.length)
    (hDirs : ∀ d ∈ resolveDirs sort_keys sort_dir sort_dirs, d = "asc" ∨ d = "desc")
    (hKeys : ∀ k ∈ sort_keys, model.contains k = true)
    (hVals : ∀ k ∈ sort_keys, (m k).isVal = true) :
    paginate_query q model limit sort_keys (some m) sort_dir sort_dirs =
      .ok ({ orderings := q.orderings ++
               (sort_keys.zip (resolveDirs sort_keys sort_dir sort_dirs)).map
                 (fun p => (p.1, parseDir p.2)),
             filters := q.filters ++
               [specCompoundPredicate sort_keys
                 ((resolveDirs sort_keys sort_dir sort_dirs).map parseDir)
                 (sort_keys.map fun k => (m k).toVal)],
             limitv := match limit with | some l => some l | none => q.limitv },
           !(sort_keys.contains "id")) ∧
    (∀ row : Row,
      evalPred row (markerPredicate ["counter_name", "resource_id"]
          ["desc", "desc"] [some "odd", some "id7"]) =
        (evalPred row (PredExp.cmpLt "counter_name" (some "odd")) ||
          (evalPred row (PredExp.cmpEq "counter_name" (some "odd")) &&
            evalPred row (PredExp.cmpLt "resource_id" (some "id7"))))) := by
  constructor
  · rw [paginate_query_ok q model limit sort_keys (some m) sort_dir sort_dirs hA hLen
      hDirs hKeys
      (fun m2 hm2 => by
        obtain rfl : m = m2 := by injection hm2
        exact fun k hk => MarkerAttr.not_isAbsent_of_isVal (hVals k hk))]
    simp only [addedFilters]
    rw [markerPredicate_eq_spec sort_keys _ m hLen hDirs hVals]
  · intro row
    have hconc : markerPredicate ["counter_name", "resource_id"] ["desc", "desc"]
        [some "odd", some "id7"] =
        PredExp.orP [PredExp.andP [PredExp.cmpLt "counter_name" (some "odd")],
          PredExp.andP [PredExp.cmpEq "counter_name" (some "odd"),
            PredExp.cmpLt "resource_id" (some "id7")]] := rfl
    rw [hconc]
    simp [evalPred, evalDisj, evalConj]

/-- Witness for C1: the demo call (keys counter_name, resource_id, shared
direction desc, marker (odd, id7), limit 3) satisfies every hypothesis and
the conclusion. -/
theorem paginate_marker_predicate_matches_spec_formula_witness :
    ((truthyStr (some "desc") && truthyList none) = false) ∧
    ((resolveDirs ["counter_name", "resource_id"] (some "desc") none).length =
      (["counter_name", "resource_id"] : List String).length) ∧
    (∀ d ∈ resolveDirs ["counter_name", "resource_id"] (some "desc") none,
      d = "asc" ∨ d = "desc") ∧
    (∀ k ∈ ["counter_name", "resource_id"], meterModel.contains k = true) ∧
    (∀ k ∈ ["counter_name", "resource_id"], (exampleMarker k).isVal = true) ∧
    (paginate_query emptyQuery meterModel (some 3) ["counter_name", "resource_id"]
        (some exampleMarker) (some "desc") none =
      .ok ({ orderings := emptyQuery.orderings ++
               ((["counter_name", "resource_id"]).zip
                 (resolveDirs ["counter_name", "resource_id"] (some "desc") none)).map
                   (fun p => (p.1, parseDir p.2)),
             filters := emptyQuery.filters ++
               [specCompoundPredicate ["counter_name", "resource_id"]
                 ((resolveDirs ["counter_name", "resource_id"] (some "desc") none).map parseDir)
                 ((["counter_name", "resource_id"]).map fun k => (exampleMarker k).toVal)],
             limitv := match (some 3 : Option Int) with
               | some l => some l | none => emptyQuery.limitv },
           !((["counter_name", "resource_id"] : List String).contains "id")) ∧
     (∀ row : Row,
       evalPred row (markerPredicate ["counter_name", "resource_id"]
           ["desc", "desc"] [some "odd", some "id7"]) =
         (evalPred row (PredExp.cmpLt "counter_name" (some "odd")) ||
           (evalPred row (PredExp.cmpEq "counter_name" (some "odd")) &&
             evalPred row (PredExp.cmpLt "resource_id" (some "id7")))))) :=
  ⟨by decide, by decide, by decide, by decide, by decide,
    paginate_marker_predicate_matches_spec_formula emptyQuery meterModel (some 3)
      ["counter_name", "resource_id"] exampleMarker (some "desc") none
      (by decide) (by decide) (by decide) (by decide) (by decide)⟩

/-- The bare strict comparison on a single sort key (lines 88-91): `<` the
marker value for a descending key, `>` for any other direction string. -/
def bareIneq (k : String) (d : String) (v : Value) : PredExp :=
  if d = "desc" then PredExp.cmpLt k (some v) else PredExp.cmpGt k (some v)

/-- C2: on every successful call with exactly one sort key and a marker, the
compound predicate added by `paginate_query` is the disjunction of one
conjunction of one comparison, and that wrapped predicate evaluates on every
row exactly as the bare strict inequality on the single key. -/
theorem paginate_single_key_predicate_equiv_bare_inequality
    (q : Query) (model : List String) (limit : Option Int)
    (k : String) (m : Marker) (v : Value)
    (sort_dir : Option String) (sort_dirs : Option (List String))
    (hA : (truthyStr sort_dir && truthyList sort_dirs) = false)
    (hLen : (resolveDirs [k] sort_dir sort_dirs).length = 1)
    (hDirs : ∀ d ∈ resolveDirs [k] sort_dir sort_dirs, d = "asc" ∨ d = "desc")
    (hKey : model.contains k = true)
    (hVal : m k = .val v) :
    paginate_query q model limit [k] (some m) sort_dir sort_dirs =
      .ok ({ orderings := q.orderings ++
               [(k, parseDir ((resolveDirs [k] sort_dir sort_dirs).getD 0 ""))],
             filters := q.filters ++
               [PredExp.orP [PredExp.andP
                 [bareIneq k ((resolveDirs [k] sort_dir sort_dirs).getD 0 "") v]]],
             limitv := match limit with | some l => some l | none => q.limitv },
           !([k].contains "id")) ∧
    (∀ row : Row,
      evalPred row (PredExp.orP [PredExp.andP
          [bareIneq k ((resolveDirs [k] sort_dir sort_dirs).getD 0 "") v]]) =
        evalPred row (bareIneq k ((resolveDirs [k] sort_dir sort_dirs).getD 0 "") v)) := by
  refine ⟨?_, fun row => evalPred_orP_andP_single _ row⟩
  obtain ⟨d, hd⟩ := List.length_eq_one.mp hLen
  rw [paginate_query_ok q model limit [k] (some m) sort_dir sort_dirs hA
    (by simpa using hLen)
    hDirs
    (fun k2 hk2 => by rw [List.mem_singleton.mp hk2]; exact hKey)
    (fun m2 hm2 => by
      obtain rfl : m = m2 := by injection hm2
      intro k2 hk2
      rw [List.mem_singleton.mp hk2, hVal]
      rfl)]
  rw [hd]
  have hr : List.range 1 = [0] := rfl
  simp [addedFilters, markerPredicate, buildCriterion, bareIneq, hr,
    markerValsOf, hVal, MarkerAttr.toPyVal]

/-- Witness for C2: a single-key call on `id` with an all-default direction
and a marker carrying id 17. -/
theorem paginate_single_key_predicate_equiv_bare_inequality_witness :
    ((truthyStr none && truthyList none) = false) ∧
    ((resolveDirs ["id"] none none).length = 1) ∧
    (∀ d ∈ resolveDirs ["id"] none none, d = "asc" ∨ d = "desc") ∧
    (meterModel.contains "id" = true) ∧
    (exampleMarker "id" = .val "17") ∧
    (paginate_query emptyQuery meterModel none ["id"] (some exampleMarker) none none =
      .ok ({ orderings := emptyQuery.orderings ++
               [("id", parseDir ((resolveDirs ["id"] none none).getD 0 ""))],
             filters := emptyQuery.filters ++
               [PredExp.orP [PredExp.andP
                 [bareIneq "id" ((resolveDirs ["id"] none none).getD 0 "") "17"]]],
             limitv := match (none : Option Int) with
               | some l => some l | none => emptyQuery.limitv },
           !((["id"] : List String).contains "id")) ∧
     (∀ row : Row,
       evalPred row (PredExp.orP [PredExp.andP
           [bareIneq "id" ((resolveDirs ["id"] none none).getD 0 "") "17"]]) =
         evalPred row (bareIneq "id" ((resolveDirs ["id"] none none).getD 0 "") "17"))) :=
  ⟨by decide, by decide, by decide, by decide, by decide,
    paginate_single_key_predicate_equiv_bare_inequality emptyQuery meterModel none
      "id" exampleMarker "17" none none
      (by decide) (by decide) (by decide) (by decide) (by decide)⟩

/-- Counterexample to C3 as stated: a marker whose value for the sort key
`id` is null (Python `None`) is not rejected at all — the call succeeds and
silently builds the predicate `id > NULL` from the missing value, instead of
failing with a marker-value-missing error. -/
theorem paginate_null_marker_value_not_rejected :
    paginate_query emptyQuery meterModel none ["id"]
        (some (fun k => if k = "id" then MarkerAttr.nullVal else MarkerAttr.absent))
        none none =
      .ok ({ orderings := [("id", SortDir.asc)],
             filters := [PredExp.orP [PredExp.andP [PredExp.cmpGt "id" none]]],
             limitv := none }, false) := rfl

/-- C3 amended: with a marker supplied (and the call otherwise valid), an
attribute that is entirely absent from the marker for some sort key makes the
call fail with the attribute-lookup error (the code's only counterpart of
MarkerValueMissingError), while a marker having every attribute — even with
null values — is never rejected: the call succeeds. -/
theorem paginate_marker_missing_attribute_behavior
    (q : Query) (model : List String) (limit : Option Int)
    (sort_keys : List String) (m : Marker)
    (sort_dir : Option String) (sort_dirs : Option (List String))
    (hA : (truthyStr sort_dir && truthyList sort_dirs) = false)
    (hLen : (resolveDirs sort_keys sort_dir sort_dirs).length = sort_keys.length)
    (hDirs : ∀ d ∈ resolveDirs sort_keys sort_dir sort_dirs, d = "asc" ∨ d = "desc")
    (hKeys : ∀ k ∈ sort_keys, model.contains k = true) :
    ((∃ k ∈ sort_keys, (m k).isAbsent = true) →
      ∃ a, paginate_query q model limit sort_keys (some m) sort_dir sort_dirs =
        .error (.attributeError a)) ∧
    ((∀ k ∈ sort_keys, (m k).isAbsent = false) →
      paginate_query q model limit sort_keys (some m) sort_dir sort_dirs =
        .ok ({ orderings := q.orderings ++
                 (sort_keys.zip (resolveDirs sort_keys sort_dir sort_dirs)).map
                   (fun p => (p.1, parseDir p.2)),
               filters := q.filters ++
                 addedFilters (some m) sort_keys (resolveDirs sort_keys sort_dir sort_dirs),
               limitv := match limit with | some l => some l | none => q.limitv },
             !(sort_keys.contains "id"))) := by
  constructor
  · intro hAbs
    obtain ⟨a, ha⟩ := collectMarkerValues_absent m sort_keys hAbs
    refine ⟨a, ?_⟩
    have hzip : ∀ p ∈ sort_keys.zip (resolveDirs sort_keys sort_dir sort_dirs),
        (p.2 = "asc" ∨ p.2 = "desc") ∧ model.contains p.1 = true := by
      intro p hp
      have hmem := List.of_mem_zip hp
      exact ⟨hDirs _ hmem.2, hKeys _ hmem.1⟩
    unfold paginate_query
    rw [if_neg (by simp [hA]), if_pos hLen, addSorting_ok model _ hzip q]
    simp [ha]
  · intro hNoAbs
    exact paginate_query_ok q model limit sort_keys (some m) sort_dir sort_dirs hA hLen
      hDirs hKeys
      (fun m2 hm2 => by
        obtain rfl : m = m2 := by injection hm2
        exact hNoAbs)

/-- Witness for the amended C3: keys (counter_name, resource_id); a marker
carrying only counter_name makes the call fail with the attribute error on
resource_id; the demo marker, which has both attributes, succeeds. -/
theorem paginate_marker_missing_attribute_behavior_witness :
    ((truthyStr none && truthyList none) = false) ∧
    ((resolveDirs ["counter_name", "resource_id"] none none).length =
      (["counter_name", "resource_id"] : List String).length) ∧
    (∀ d ∈ resolveDirs ["counter_name", "resource_id"] none none,
      d = "asc" ∨ d = "desc") ∧
    (∀ k ∈ ["counter_name", "resource_id"], meterModel.contains k = true) ∧
    (((∃ k ∈ ["counter_name", "resource_id"],
        ((fun a => if a = "counter_name" then MarkerAttr.val "odd"
          else MarkerAttr.absent) k).isAbsent = true) →
      ∃ a, paginate_query emptyQuery meterModel none ["counter_name", "resource_id"]
          (some (fun a => if a = "counter_name" then MarkerAttr.val "odd"
            else MarkerAttr.absent)) none none =
        .error (.attributeError a)) ∧
     ((∀ k ∈ ["counter_name", "resource_id"],
        ((fun a => if a = "counter_name" then MarkerAttr.val "odd"
          else MarkerAttr.absent) k).isAbsent = false) →
      paginate_query emptyQuery meterModel none ["counter_name", "resource_id"]
          (some (fun a => if a = "counter_name" then MarkerAttr.val "odd"
            else MarkerAttr.absent)) none none =
        .ok ({ orderings := emptyQuery.orderings ++
                 ((["counter_name", "resource_id"]).zip
                   (resolveDirs ["counter_name", "resource_id"] none none)).map
                     (fun p => (p.1, parseDir p.2)),
               filters := emptyQuery.filters ++
                 addedFilters (some (fun a => if a = "counter_name" then MarkerAttr.val "odd"
                   else MarkerAttr.absent)) ["counter_name", "resource_id"]
                   (resolveDirs ["counter_name", "resource_id"] none none),
               limitv := match (none : Option Int) with
                 | some l => some l | none => emptyQuery.limitv },
             !((["counter_name", "resource_id"] : List String).contains "id")))) :=
  ⟨by decide, by decide, by decide, by decide,
    paginate_marker_missing_attribute_behavior emptyQuery meterModel none
      ["counter_name", "resource_id"]
      (fun a => if a = "counter_name" then MarkerAttr.val "odd" else MarkerAttr.absent)
      none none (by decide) (by decide) (by decide) (by decide)⟩

/-- Counterexample to C4 as stated: supplying both a shared direction and a
per-key direction list does not always fail the conflict assert — Python
truthiness lets an empty per-key list through (the empty list is falsy), and
the call instead fails the direction-count assert. -/
theorem paginate_conflict_claim_fails_on_empty_dir_list :
    paginate_query emptyQuery meterModel none ["id"] none (some "asc") (some []) =
      .error .assertionDirCountMismatch ∧
    paginate_query emptyQuery meterModel none ["id"] none (some "asc") (some []) ≠
      .error .assertionConflictingDirs := by
  refine ⟨rfl, fun h => ?_⟩
  have h2 : (Except.error PgError.assertionDirCountMismatch :
      Except PgError (Query × Bool)) = .error .assertionConflictingDirs := h
  exact absurd (Except.error.inj h2) (by decide)

/-- C4 amended: whenever both a truthy shared direction (a non-empty string)
and a truthy per-key direction list (a non-empty list) are supplied, the call
fails with the conflicting-directions assert on line 44 — before any ordering,
filtering or limit is applied, whatever the other arguments are. -/
theorem paginate_both_direction_modes_conflict_error
    (q : Query) (model : List String) (limit : Option Int)
    (sort_keys : List String) (marker : Option Marker)
    (sort_dir : Option String) (sort_dirs : Option (List String))
    (hT : truthyStr sort_dir = true) (hL : truthyList sort_dirs = true) :
    paginate_query q model limit sort_keys marker sort_dir sort_dirs =
      .error .assertionConflictingDirs := by
  unfold paginate_query
  rw [if_pos (by simp [hT, hL])]

/-- Witness for the amended C4: a shared 'asc' together with a one-element
per-key list fails with the conflict error. -/
theorem paginate_both_direction_modes_conflict_error_witness :
    (truthyStr (some "asc") = true) ∧ (truthyList (some ["desc"]) = true) ∧
    paginate_query emptyQuery meterModel none ["id"] none
        (some "asc") (some ["desc"]) = .error .assertionConflictingDirs :=
  ⟨by decide, by decide,
    paginate_both_direction_modes_conflict_error emptyQuery meterModel none ["id"]
      none (some "asc") (some ["desc"]) (by decide) (by decide)⟩

/-- Counterexample to C5 as stated: a per-key direction list of mismatched
length does not always fail with the count-mismatch assert — when a truthy
shared direction is supplied as well, the conflict assert on line 44 fires
first. -/
theorem paginate_count_mismatch_claim_masked_by_conflict :
    paginate_query emptyQuery meterModel none ["id", "counter_name"] none
        (some "asc") (some ["desc"]) = .error .assertionConflictingDirs ∧
    paginate_query emptyQuery meterModel none ["id", "counter_name"] none
        (some "asc") (some ["desc"]) ≠ .error .assertionDirCountMismatch := by
  refine ⟨rfl, fun h => ?_⟩
  have h2 : (Except.error PgError.assertionConflictingDirs :
      Except PgError (Query × Bool)) = .error .assertionDirCountMismatch := h
  exact absurd (Except.error.inj h2) (by decide)

/-- C5 amended: a per-key direction list whose length differs from the sort
key list's length fails with the count-mismatch assert on line 54, provided
the conflict assert passed (the shared direction and the list are not both
truthy); in particular a list of length 1 against a 2-key specification with
no shared direction fails this way. -/
theorem paginate_dir_count_mismatch_error
    (q : Query) (model : List String) (limit : Option Int)
    (sort_keys : List String) (marker : Option Marker)
    (sort_dir : Option String) (l : List String)
    (hA : (truthyStr sort_dir && truthyList (some l)) = false)
    (hNe : l.length ≠ sort_keys.length) :
    paginate_query q model limit sort_keys marker sort_dir (some l) =
      .error .assertionDirCountMismatch := by
  unfold paginate_query
  rw [if_neg (by simp [hA]), if_neg (by simpa [resolveDirs] using hNe)]

/-- Witness for the amended C5: a one-element direction list against the
2-key specification (counter_name, resource_id) and no shared direction. -/
theorem paginate_dir_count_mismatch_error_witness :
    ((truthyStr none && truthyList (some ["asc"])) = false) ∧
    ((["asc"] : List String).length ≠
      (["counter_name", "resource_id"] : List String).length) ∧
    paginate_query emptyQuery meterModel none ["counter_name", "resource_id"] none
        none (some ["asc"]) = .error .assertionDirCountMismatch :=
  ⟨by decide, by decide,
    paginate_dir_count_mismatch_error emptyQuery meterModel none
      ["counter_name", "resource_id"] none none ["asc"] (by decide) (by decide)⟩

lemma resolveDirs_recognized (sort_keys : List String) (sort_dir : Option String)
    (sort_dirs : Option (List String))
    (hList : ∀ l, sort_dirs = some l → ∀ d ∈ l, d = "asc" ∨ d = "desc")
    (hShared : ∀ s, sort_dir = some s → s = "asc" ∨ s = "desc") :
    ∀ d ∈ resolveDirs sort_keys sort_dir sort_dirs, d = "asc" ∨ d = "desc" := by
  intro d hd
  cases sort_dirs with
  | some l => exact hList l rfl d hd
  | none =>
    rw [resolveDirs] at hd
    obtain ⟨k, _, hdk⟩ := List.mem_map.mp hd
    cases sort_dir with
    | none => exact Or.inl hdk.symm
    | some s => exact hdk ▸ hShared s rfl

/-- Counterexample to C6 as stated: a call supplying the unrecognized
direction value 'bogus' does not always fail with the unknown-direction
error — here the direction-count assert fires first. -/
theorem paginate_unknown_direction_claim_masked_by_count_mismatch :
    paginate_query emptyQuery meterModel none ["id", "counter_name"] none
        none (some ["bogus"]) = .error .assertionDirCountMismatch ∧
    paginate_query emptyQuery meterModel none ["id", "counter_name"] none
        none (some ["bogus"]) ≠ .error .valueErrorUnknownSortDirection := by
  refine ⟨rfl, fun h => ?_⟩
  have h2 : (Except.error PgError.assertionDirCountMismatch :
      Except PgError (Query × Bool)) = .error .valueErrorUnknownSortDirection := h
  exact absurd (Except.error.inj h2) (by decide)

/-- C6 amended: (a) when the two asserts pass and every sort key is a model
attribute, a resolved direction outside the `{'asc', 'desc'}` dictionary makes
the call fail with the unknown-direction ValueError; (b) whenever every
supplied direction value (each element of the per-key list, and the shared
direction if given) is recognized, the unknown-direction failure never
occurs, whatever the other arguments are. -/
theorem paginate_unknown_direction_error_behavior
    (q : Query) (model : List String) (limit : Option Int)
    (sort_keys : List String) (marker : Option Marker)
    (sort_dir : Option String) (sort_dirs : Option (List String)) :
    (((truthyStr sort_dir && truthyList sort_dirs) = false →
      (resolveDirs sort_keys sort_dir sort_dirs).length = sort_keys.length →
      (∀ k ∈ sort_keys, model.contains k = true) →
      (∃ d ∈ resolveDirs sort_keys sort_dir sort_dirs, dirFuncLookup d = none) →
      paginate_query q model limit sort_keys marker sort_dir sort_dirs =
        .error .valueErrorUnknownSortDirection)) ∧
    ((∀ l, sort_dirs = some l → ∀ d ∈ l, d = "asc" ∨ d = "desc") →
     (∀ s, sort_dir = some s → s = "asc" ∨ s = "desc") →
      paginate_query q model limit sort_keys marker sort_dir sort_dirs ≠
        .error .valueErrorUnknownSortDirection) := by
  constructor
  · intro hA hLen hKeys hBad
    obtain ⟨d0, hd0, hl0⟩ := hBad
    obtain ⟨k0, hk0⟩ := exists_pair_of_mem_right sort_keys _ hLen.symm d0 hd0
    unfold paginate_query
    rw [if_neg (by simp [hA]), if_pos hLen,
      addSorting_unknown_dir model _ (fun p hp => hKeys p.1 (List.of_mem_zip hp).1)
        ⟨(k0, d0), hk0, hl0⟩ q]
  · intro hList hShared h
    have hGood : ∀ p ∈ sort_keys.zip (resolveDirs sort_keys sort_dir sort_dirs),
        dirFuncLookup p.2 ≠ none := by
      intro p hp
      rcases resolveDirs_recognized sort_keys sort_dir sort_dirs hList hShared
          p.2 (List.of_mem_zip hp).2 with h2 | h2
      · simp [dirFuncLookup_of_recognized (Or.inl h2)]
      · simp [dirFuncLookup_of_recognized (Or.inr h2)]
    unfold paginate_query at h
    split at h
    · exact absurd (Except.error.inj h) (by decide)
    · split at h
      · cases haddr : addSorting model q
            (sort_keys.zip (resolveDirs sort_keys sort_dir sort_dirs)) with
        | error e =>
          simp only [haddr] at h
          have he : e = .valueErrorUnknownSortDirection := by simpa using h
          subst he
          exact addSorting_no_unknown_dir model _ hGood q haddr
        | ok q1 =>
          simp only [haddr] at h
          cases marker with
          | none => cases limit <;> simp at h
          | some m =>
            cases hcol : collectMarkerValues m sort_keys with
            | error e2 =>
              simp only [hcol] at h
              obtain ⟨a, ha⟩ := collectMarkerValues_error_shape m sort_keys e2 hcol
              subst ha
              simp at h
            | ok mvals =>
              simp only [hcol] at h
              cases limit <;> simp at h
      · exact absurd (Except.error.inj h) (by decide)

/-- Witness for C6: part (a) at the call with directions ['asc', 'bogus'] on
keys (id, counter_name) — the second direction is unrecognized and the call
fails with the unknown-direction error. -/
theorem paginate_unknown_direction_error_behavior_witness :
    ((truthyStr none && truthyList (some ["asc", "bogus"])) = false) ∧
    ((resolveDirs ["id", "counter_name"] none (some ["asc", "bogus"])).length =
      (["id", "counter_name"] : List String).length) ∧
    (∀ k ∈ ["id", "counter_name"], meterModel.contains k = true) ∧
    (∃ d ∈ resolveDirs ["id", "counter_name"] none (some ["asc", "bogus"]),
      dirFuncLookup d = none) ∧
    paginate_query emptyQuery meterModel none ["id", "counter_name"] none
        none (some ["asc", "bogus"]) = .error .valueErrorUnknownSortDirection :=
  ⟨by decide, by decide, by decide, by decide,
    (paginate_unknown_direction_error_behavior emptyQuery meterModel none
        ["id", "counter_name"] none none (some ["asc", "bogus"])).1
      (by decide) (by decide) (by decide) (by decide)⟩

/-- C7: when neither a shared direction nor a per-key direction list is
given, every emitted ordering instruction is ascending, and every inequality
term of the marker predicate is the ascending strict comparison `>`. -/
theorem paginate_defaults_to_ascending
    (q : Query) (model : List String) (limit : Option Int)
    (sort_keys : List String) (marker : Option Marker)
    (hKeys : ∀ k ∈ sort_keys, model.contains k = true)
    (hMark : ∀ m, marker = some m → ∀ k ∈ sort_keys, (m k).isAbsent = false) :
    paginate_query q model limit sort_keys marker none none =
      .ok ({ orderings := q.orderings ++ sort_keys.map (fun k => (k, SortDir.asc)),
             filters := q.filters ++
               addedFilters marker sort_keys (sort_keys.map fun _ => "asc"),
             limitv := match limit with | some l => some l | none => q.limitv },
           !(sort_keys.contains "id")) ∧
    (∀ (mvals : List (Option Value)) (i : Nat), i < sort_keys.length →
      buildCriterion sort_keys (sort_keys.map fun _ => "asc") mvals i =
        PredExp.andP (((List.range i).map fun j =>
            PredExp.cmpEq (sort_keys.getD j "") (mvals.getD j none)) ++
          [PredExp.cmpGt (sort_keys.getD i "") (mvals.getD i none)])) := by
  have hres : resolveDirs sort_keys none none = sort_keys.map fun _ => "asc" := rfl
  constructor
  · rw [paginate_query_ok q model limit sort_keys marker none none rfl
      (by rw [hres]; exact List.length_map _ _)
      (by
        rw [hres]
        intro d hd
        obtain ⟨k, _, hdk⟩ := List.mem_map.mp hd
        exact Or.inl hdk.symm)
      hKeys hMark, hres, zip_map_const_asc]
  · intro mvals i hi
    have hd : (sort_keys.map fun _ => "asc").getD i "" = "asc" :=
      getD_map_of_lt _ sort_keys hi "" ""
    simp only [buildCriterion]
    rw [hd, if_neg (by decide)]

/-- Witness for C7: the 2-key specification with the demo marker and no
direction arguments. -/
theorem paginate_defaults_to_ascending_witness :
    (∀ k ∈ ["counter_name", "resource_id"], meterModel.contains k = true) ∧
    (∀ m, some exampleMarker = some m →
      ∀ k ∈ ["counter_name", "resource_id"], (m k).isAbsent = false) ∧
    (paginate_query emptyQuery meterModel (some 3) ["counter_name", "resource_id"]
        (some exampleMarker) none none =
      .ok ({ orderings := emptyQuery.orderings ++
               (["counter_name", "resource_id"]).map (fun k => (k, SortDir.asc)),
             filters := emptyQuery.filters ++
               addedFilters (some exampleMarker) ["counter_name", "resource_id"]
                 ((["counter_name", "resource_id"]).map fun _ => "asc"),
             limitv := match (some 3 : Option Int) with
               | some l => some l | none => emptyQuery.limitv },
           !((["counter_name", "resource_id"] : List String).contains "id")) ∧
     (∀ (mvals : List (Option Value)) (i : Nat),
        i < (["counter_name", "resource_id"] : List String).length →
        buildCriterion ["counter_name", "resource_id"]
            ((["counter_name", "resource_id"]).map fun _ => "asc") mvals i =
          PredExp.andP (((List.range i).map fun j =>
              PredExp.cmpEq ((["counter_name", "resource_id"] : List String).getD j "")
                (mvals.getD j none)) ++
            [PredExp.cmpGt ((["counter_name", "resource_id"] : List String).getD i "")
              (mvals.getD i none)]))) :=
  ⟨by decide,
   fun m hm => by
     obtain rfl : exampleMarker = m := by injection hm
     decide,
   paginate_defaults_to_ascending emptyQuery meterModel (some 3)
     ["counter_name", "resource_id"] (some exampleMarker)
     (by decide)
     (fun m hm => by
       obtain rfl : exampleMarker = m := by injection hm
       decide)⟩

/-- C8: with the marker absent, no filter predicate is added while one
ordering instruction per sort key is still emitted, in specification order,
each with its key's own direction. -/
theorem paginate_no_marker_no_filter
    (q : Query) (model : List String) (limit : Option Int)
    (sort_keys : List String)
    (sort_dir : Option String) (sort_dirs : Option (List String))
    (hA : (truthyStr sort_dir && truthyList sort_dirs) = false)
    (hLen : (resolveDirs sort_keys sort_dir sort_dirs).length = sort_keys.length)
    (hDirs : ∀ d ∈ resolveDirs sort_keys sort_dir sort_dirs, d = "asc" ∨ d = "desc")
    (hKeys : ∀ k ∈ sort_keys, model.contains k = true) :
    paginate_query q model limit sort_keys none sort_dir sort_dirs =
      .ok ({ orderings := q.orderings ++
               (sort_keys.zip (resolveDirs sort_keys sort_dir sort_dirs)).map
                 (fun p => (p.1, parseDir p.2)),
             filters := q.filters,
             limitv := match limit with | some l => some l | none => q.limitv },
           !(sort_keys.contains "id")) ∧
    ((sort_keys.zip (resolveDirs sort_keys sort_dir sort_dirs)).map
        (fun p => (p.1, parseDir p.2))).map Prod.fst = sort_keys := by
  constructor
  · have h := paginate_query_ok q model limit sort_keys none sort_dir sort_dirs hA hLen
      hDirs hKeys (fun m hm => nomatch hm)
    simpa [addedFilters] using h
  · rw [List.map_map]
    have hcomp : (Prod.fst ∘ fun p : String × String => (p.1, parseDir p.2)) =
        Prod.fst := rfl
    rw [hcomp, List.map_fst_zip]
    exact le_of_eq hLen.symm

/-- Witness for C8: the demo's first-page call — keys (counter_name,
resource_id), shared direction desc, limit 3, no marker. -/
theorem paginate_no_marker_no_filter_witness :
    ((truthyStr (some "desc") && truthyList none) = false) ∧
    ((resolveDirs ["counter_name", "resource_id"] (some "desc") none).length =
      (["counter_name", "resource_id"] : List String).length) ∧
    (∀ d ∈ resolveDirs ["counter_name", "resource_id"] (some "desc") none,
      d = "asc" ∨ d = "desc") ∧
    (∀ k ∈ ["counter_name", "resource_id"], meterModel.contains k = true) ∧
    (paginate_query emptyQuery meterModel (some 3) ["counter_name", "resource_id"]
        none (some "desc") none =
      .ok ({ orderings := emptyQuery.orderings ++
               ((["counter_name", "resource_id"]).zip
                 (resolveDirs ["counter_name", "resource_id"] (some "desc") none)).map
                   (fun p => (p.1, parseDir p.2)),
             filters := emptyQuery.filters,
             limitv := match (some 3 : Option Int) with
               | some l => some l | none => emptyQuery.limitv },
           !((["counter_name", "resource_id"] : List String).contains "id")) ∧
     ((((["counter_name", "resource_id"]).zip
        (resolveDirs ["counter_name", "resource_id"] (some "desc") none)).map
          (fun p => (p.1, parseDir p.2))).map Prod.fst = ["counter_name", "resource_id"])) :=
  ⟨by decide, by decide, by decide, by decide,
    paginate_no_marker_no_filter emptyQuery meterModel (some 3)
      ["counter_name", "resource_id"] (some "desc") none
      (by decide) (by decide) (by decide) (by decide)⟩

/-- C9: on every successful call, a provided non-negative limit is stored as
the query's row cap and execution returns at most that many rows (the cap is
applied after filtering and sorting, with no offset); limit 0 yields an empty
result; an absent limit leaves the input query's cap unchanged. -/
theorem paginate_limit_application
    (q : Query) (model : List String) (limit : Option Int)
    (sort_keys : List String) (marker : Option Marker)
    (sort_dir : Option String) (sort_dirs : Option (List String))
    (hA : (truthyStr sort_dir && truthyList sort_dirs) = false)
    (hLen : (resolveDirs sort_keys sort_dir sort_dirs).length = sort_keys.length)
    (hDirs : ∀ d ∈ resolveDirs sort_keys sort_dir sort_dirs, d = "asc" ∨ d = "desc")
    (hKeys : ∀ k ∈ sort_keys, model.contains k = true)
    (hMark : ∀ m, marker = some m → ∀ k ∈ sort_keys, (m k).isAbsent = false) :
    (∀ l : Int, limit = some l → 0 ≤ l →
      ∃ out : Query, ∃ w : Bool,
        paginate_query q model limit sort_keys marker sort_dir sort_dirs =
          .ok (out, w) ∧
        out.limitv = some l ∧
        (∀ rows : List Row, (runQuery out rows).length ≤ l.toNat) ∧
        (l = 0 → ∀ rows : List Row, runQuery out rows = [])) ∧
    (limit = none →
      ∃ out : Query, ∃ w : Bool,
        paginate_query q model limit sort_keys marker sort_dir sort_dirs =
          .ok (out, w) ∧
        out.limitv = q.limitv) := by
  have hchar := paginate_query_ok q model limit sort_keys marker sort_dir sort_dirs
    hA hLen hDirs hKeys hMark
  constructor
  · intro l hl hl0
    subst hl
    refine ⟨_, _, hchar, rfl, ?_, ?_⟩
    · intro rows
      simp only [runQuery, List.length_take]
      omega
    · intro hl0' rows
      subst hl0'
      simp [runQuery]
  · intro hl
    subst hl
    exact ⟨_, _, hchar, rfl⟩

/-- Witness for C9: a limit-0 call on key id with no marker. -/
theorem paginate_limit_application_witness :
    ((truthyStr none && truthyList none) = false) ∧
    ((resolveDirs ["id"] none none).length = (["id"] : List String).length) ∧
    (∀ d ∈ resolveDirs ["id"] none none, d = "asc" ∨ d = "desc") ∧
    (∀ k ∈ ["id"], meterModel.contains k = true) ∧
    ((∀ l : Int, (some 0 : Option Int) = some l → 0 ≤ l →
      ∃ out : Query, ∃ w : Bool,
        paginate_query emptyQuery meterModel (some 0) ["id"] none none none =
          .ok (out, w) ∧
        out.limitv = some l ∧
        (∀ rows : List Row, (runQuery out rows).length ≤ l.toNat) ∧
        (l = 0 → ∀ rows : List Row, runQuery out rows = [])) ∧
     ((some 0 : Option Int) = none →
      ∃ out : Query, ∃ w : Bool,
        paginate_query emptyQuery meterModel (some 0) ["id"] none none none =
          .ok (out, w) ∧
        out.limitv = emptyQuery.limitv)) :=
  ⟨by decide, by decide, by decide, by decide,
    paginate_limit_application emptyQuery meterModel (some 0) ["id"] none none none
      (by decide) (by decide) (by decide) (by decide) (fun m hm => nomatch hm)⟩

/-- C10: an otherwise-valid call whose sort keys do not include the unique
identifier `id` still succeeds with its normal output; the condition only
sets the advisory-diagnostic flag (the logged warning), never an error. -/
theorem paginate_missing_id_key_only_advisory
    (q : Query) (model : List String) (limit : Option Int)
    (sort_keys : List String) (marker : Option Marker)
    (sort_dir : Option String) (sort_dirs : Option (List String))
    (hA : (truthyStr sort_dir && truthyList sort_dirs) = false)
    (hLen : (resolveDirs sort_keys sort_dir sort_dirs).length = sort_keys.length)
    (hDirs : ∀ d ∈ resolveDirs sort_keys sort_dir sort_dirs, d = "asc" ∨ d = "desc")
    (hKeys : ∀ k ∈ sort_keys, model.contains k = true)
    (hMark : ∀ m, marker = some m → ∀ k ∈ sort_keys, (m k).isAbsent = false)
    (hId : sort_keys.contains "id" = false) :
    paginate_query q model limit sort_keys marker sort_dir sort_dirs =
      .ok ({ orderings := q.orderings ++
               (sort_keys.zip (resolveDirs sort_keys sort_dir sort_dirs)).map
                 (fun p => (p.1, parseDir p.2)),
             filters := q.filters ++
               addedFilters marker sort_keys (resolveDirs sort_keys sort_dir sort_dirs),
             limitv := match limit with | some l => some l | none => q.limitv },
           true) := by
  rw [paginate_query_ok q model limit sort_keys marker sort_dir sort_dirs
    hA hLen hDirs hKeys hMark, hId]
  rfl

/-- Witness for C10: the demo call sorts by (counter_name, resource_id)
without id; it succeeds and the diagnostic flag is set. -/
theorem paginate_missing_id_key_only_advisory_witness :
    ((truthyStr (some "desc") && truthyList none) = false) ∧
    ((resolveDirs ["counter_name", "resource_id"] (some "desc") none).length =
      (["counter_name", "resource_id"] : List String).length) ∧
    (∀ d ∈ resolveDirs ["counter_name", "resource_id"] (some "desc") none,
      d = "asc" ∨ d = "desc") ∧
    (∀ k ∈ ["counter_name", "resource_id"], meterModel.contains k = true) ∧
    ((["counter_name", "resource_id"] : List String).contains "id" = false) ∧
    (paginate_query emptyQuery meterModel (some 3) ["counter_name", "resource_id"]
        none (some "desc") none =
      .ok ({ orderings := emptyQuery.orderings ++
               ((["counter_name", "resource_id"]).zip
                 (resolveDirs ["counter_name", "resource_id"] (some "desc") none)).map
                   (fun p => (p.1, parseDir p.2)),
             filters := emptyQuery.filters ++
               addedFilters none ["counter_name", "resource_id"]
                 (resolveDirs ["counter_name", "resource_id"] (some "desc") none),
             limitv := match (some 3 : Option Int) with
               | some l => some l | none => emptyQuery.limitv },
           true)) :=
  ⟨by decide, by decide, by decide, by decide, by decide,
    paginate_missing_id_key_only_advisory emptyQuery meterModel (some 3)
      ["counter_name", "resource_id"] none (some "desc") none
      (by decide) (by decide) (by decide) (by decide) (fun m hm => nomatch hm)
      (by decide)⟩
